import Mathlib

/-!
Verification development for the PulseCheck feedback-intake pipeline
(`src/damp-sunset-0d05/src/index.ts`).

The TypeScript source is shallowly embedded here:

* JavaScript runtime values flowing through the pipeline (the parsed AI
  response, the alert payload, the workflow result object, HTTP JSON bodies)
  are modelled by the inductive `JSVal`; JavaScript property access,
  string conversion, `JSON.parse` and `JSON.stringify` are modelled by
  `jsMember`, `jsToString`, `JSON.parse` and `jsonStringify`.
* The external collaborators (the `env.AI.run` generation call and the
  `env.MY_WORKFLOW.create` call) are modelled by their outcome, an
  `Except Unit String`: `.error ()` is a thrown error, `.ok s` a returned
  text / identifier.
* The D1 store is modelled by `DB`: the `feedback` table as a list of
  `FeedbackRow` and the `aggregated_stats` table as a list of `StatRow`.
  Store-assigned timestamps (`created_at`, `updated_at`) appear in no
  claim and are not modelled; identifiers are modelled as autoincrement
  naturals.  Values bound into SQL statements are converted by `toSql`
  (D1 rejects `undefined` and objects, and converts booleans to 0/1).
* `String.take` models `String.prototype.substring(0, n)` at character
  granularity.
-/

set_option autoImplicit false

namespace PulseCheck

/-- A JavaScript runtime value, as produced by `JSON.parse` and passed
between the workflow steps.  `undefined` is JavaScript's `undefined` (the
result of reading an absent property); it is never produced by
`JSON.parse`.  Numbers are modelled exactly as rationals; no code path
of the repository serializes a non-integral number. -/
inductive JSVal where
  | undefined : JSVal
  | jnull : JSVal
  | jbool (b : Bool) : JSVal
  | jnum (q : ℚ) : JSVal
  | jstr (s : String) : JSVal
  | jarr (elems : List JSVal) : JSVal
  | jobj (fields : List (String × JSVal)) : JSVal

namespace JSVal

/-- First binding of a key in a field list (JavaScript objects keep one
binding per key; `insertField` below maintains that invariant the way a
JavaScript object literal / `JSON.parse` does). -/
def lookupField (fields : List (String × JSVal)) (k : String) : Option JSVal :=
  match fields with
  | [] => none
  | (k', v) :: rest => if k' = k then some v else lookupField rest k

/-- Setting a key in a field list: overwrites the value in place if the key
is present (JavaScript keeps the first position and the last value),
else appends. -/
def insertField (fields : List (String × JSVal)) (k : String) (v : JSVal) :
    List (String × JSVal) :=
  match fields with
  | [] => [(k, v)]
  | (k', v') :: rest =>
    if k' = k then (k', v) :: rest else (k', v') :: insertField rest k v

end JSVal

open JSVal

/-- JavaScript property read `v[k]`, as an `Except`: reading a property of
`null` or `undefined` throws a `TypeError`; reading an absent property of
an object, or any property of a primitive, yields `undefined`. -/
def jsMember (v : JSVal) (k : String) : Except Unit JSVal :=
  match v with
  | .undefined => .error ()
  | .jnull => .error ()
  | .jobj fields => .ok ((lookupField fields k).getD .undefined)
  | _ => .ok .undefined

/-- Rendering of a rational as JavaScript renders a number.  Every number
this repository serializes or interpolates is an integer (a `COUNT(*)`),
rendered exactly; the non-integral branch is unreachable in the embedded
code paths and its decimal rendering is not modelled further. -/
def jnumToString (q : ℚ) : String :=
  if q.den = 1 then toString q.num else toString q.num ++ "/" ++ toString q.den

mutual

/-- JavaScript string conversion, as used by template literals:
`` `category_${analysis.category}` ``. -/
def jsToString : JSVal → String
  | .undefined => "undefined"
  | .jnull => "null"
  | .jbool b => if b then "true" else "false"
  | .jnum q => jnumToString q
  | .jstr s => s
  | .jarr elems => jsToStringList elems
  | .jobj _ => "[object Object]"

/-- `Array.prototype.toString`: elements joined by commas. -/
def jsToStringList : List JSVal → String
  | [] => ""
  | [v] => jsToString v
  | v :: rest => jsToString v ++ "," ++ jsToStringList rest

end

/-- JSON escaping of one character inside a double-quoted string. -/
def jsonEscapeChar (c : Char) : String :=
  if c = '"' then "\\\""
  else if c = '\\' then "\\\\"
  else if c = '\n' then "\\n"
  else if c = '\r' then "\\r"
  else if c = '\t' then "\\t"
  else if c.toNat < 32 then "\\u00" ++ String.mk [Nat.digitChar (c.toNat / 16), Nat.digitChar (c.toNat % 16)]
  else String.mk [c]

/-- JSON rendering of a string literal, quotes included. -/
def jsonQuote (s : String) : String :=
  "\"" ++ String.join (s.data.map jsonEscapeChar) ++ "\""

mutual

/-- `JSON.stringify`.  As in JavaScript, an `undefined` value inside an
object drops the field; the top-level `undefined` case (where JavaScript
returns no string at all) is unreachable in the embedded code, which only
ever stringifies the row object of a `COUNT(*)` query. -/
def jsonStringify : JSVal → String
  | .undefined => "null"
  | .jnull => "null"
  | .jbool b => if b then "true" else "false"
  | .jnum q => jnumToString q
  | .jstr s => jsonQuote s
  | .jarr elems => "[" ++ jsonStringifyElems elems ++ "]"
  | .jobj fields => "\x7b" ++ jsonStringifyFields fields ++ "\x7d"

/-- Array elements, comma separated (`undefined` renders as `null`). -/
def jsonStringifyElems : List JSVal → String
  | [] => ""
  | [v] => jsonStringify v
  | v :: rest => jsonStringify v ++ "," ++ jsonStringifyElems rest

/-- Object fields, comma separated, `undefined`-valued fields dropped. -/
def jsonStringifyFields : List (String × JSVal) → String
  | [] => ""
  | (k, v) :: rest =>
    match v with
    | .undefined => jsonStringifyFields rest
    | _ =>
      let entry := jsonQuote k ++ ":" ++ jsonStringify v
      match jsonStringifyFields rest with
      | "" => entry
      | tail => entry ++ "," ++ tail

end

/-! ### `JSON.parse`

A model of JavaScript's strict JSON parser, used at line 27 of
`src/index.ts` (`JSON.parse(response.response)`) and at line 117
(`request.json()`): structured values, double-quoted strings with the
standard escapes, numbers without leading zeros, `true`/`false`/`null`,
and the four JSON whitespace characters.  A failing parse models the
thrown `SyntaxError`.  Recursion is fuelled by the input length.
Duplicate object keys keep the first position and the last value, as
JavaScript objects do. -/

/-- JSON whitespace: space, tab, line feed, carriage return. -/
def skipWs : List Char → List Char
  | [] => []
  | c :: rest =>
    if c = ' ' ∨ c = '\t' ∨ c = '\n' ∨ c = '\r' then skipWs rest else c :: rest

/-- Value of a hexadecimal digit. -/
def hexDigit? (c : Char) : Option Nat :=
  if '0' ≤ c ∧ c ≤ '9' then some (c.toNat - 48)
  else if 'a' ≤ c ∧ c ≤ 'f' then some (c.toNat - 87)
  else if 'A' ≤ c ∧ c ≤ 'F' then some (c.toNat - 55)
  else none

/-- Body of a JSON string literal, after the opening quote: returns the
decoded string and the input past the closing quote.  Unescaped control
characters are a syntax error. -/
def parseStrAux (acc : List Char) : List Char → Option (String × List Char)
  | [] => none
  | c :: rest =>
    if c = '"' then some (String.mk acc.reverse, rest)
    else if c = '\\' then
      match rest with
      | [] => none
      | e :: rest2 =>
        if e = '"' then parseStrAux ('"' :: acc) rest2
        else if e = '\\' then parseStrAux ('\\' :: acc) rest2
        else if e = '/' then parseStrAux ('/' :: acc) rest2
        else if e = 'b' then parseStrAux ('\x08' :: acc) rest2
        else if e = 'f' then parseStrAux ('\x0c' :: acc) rest2
        else if e = 'n' then parseStrAux ('\n' :: acc) rest2
        else if e = 'r' then parseStrAux ('\x0d' :: acc) rest2
        else if e = 't' then parseStrAux ('\t' :: acc) rest2
        else if e = 'u' then
          match rest2 with
          | h1 :: h2 :: h3 :: h4 :: rest3 =>
            match hexDigit? h1, hexDigit? h2, hexDigit? h3, hexDigit? h4 with
            | some a, some b, some c3, some d =>
              parseStrAux (Char.ofNat (((a * 16 + b) * 16 + c3) * 16 + d) :: acc) rest3
            | _, _, _, _ => none
          | _ => none
        else none
    else if c.toNat < 32 then none
    else parseStrAux (c :: acc) rest

/-- Numeric value of a digit run. -/
def digitsVal (ds : List Char) : Nat :=
  ds.foldl (fun a c => a * 10 + (c.toNat - 48)) 0

/-- Optional fraction part `.digits` of a JSON number, as a rational. -/
def parseFrac (l : List Char) : Option (ℚ × List Char) :=
  match l with
  | '.' :: r =>
    let fd := r.takeWhile Char.isDigit
    if fd = [] then none
    else some ((digitsVal fd : ℚ) / ((10 : ℚ) ^ fd.length), r.dropWhile Char.isDigit)
  | _ => some (0, l)

/-- Optional exponent part of a JSON number, as a multiplier. -/
def parseExp (l : List Char) : Option (ℚ × List Char) :=
  match l with
  | e :: r =>
    if e = 'e' ∨ e = 'E' then
      let (pos, r1) : Bool × List Char :=
        match r with
        | '+' :: r2 => (true, r2)
        | '-' :: r2 => (false, r2)
        | _ => (true, r)
      let ed := r1.takeWhile Char.isDigit
      if ed = [] then none
      else
        let m : ℚ := if pos then (10 : ℚ) ^ digitsVal ed else 1 / (10 : ℚ) ^ digitsVal ed
        some (m, r1.dropWhile Char.isDigit)
    else some (1, l)
  | [] => some (1, [])

/-- A JSON number: optional minus, integer part without leading zeros,
optional fraction, optional exponent. -/
def parseNumber (l : List Char) : Option (ℚ × List Char) :=
  let (neg, l1) : Bool × List Char :=
    match l with
    | '-' :: r => (true, r)
    | _ => (false, l)
  let intDigits := l1.takeWhile Char.isDigit
  if intDigits = [] then none
  else if 1 < intDigits.length ∧ intDigits.head? = some '0' then none
  else
    match parseFrac (l1.dropWhile Char.isDigit) with
    | none => none
    | some (f, l3) =>
      match parseExp l3 with
      | none => none
      | some (m, l4) =>
        let q : ℚ := ((digitsVal intDigits : ℚ) + f) * m
        some (if neg then -q else q, l4)

/-- A fixed keyword (`true`, `false`, `null`). -/
def parseLit (lit : List Char) (v : JSVal) (l : List Char) : Option (JSVal × List Char) :=
  if lit.isPrefixOf l then some (v, l.drop lit.length) else none

mutual

/-- One JSON value, leading whitespace allowed. -/
def parseValue : Nat → List Char → Option (JSVal × List Char)
  | 0, _ => none
  | fuel + 1, l =>
    match skipWs l with
    | [] => none
    | c :: rest =>
      if c = '"' then
        match parseStrAux [] rest with
        | some (s, r) => some (.jstr s, r)
        | none => none
      else if c = '\x7b' then
        match skipWs rest with
        | '\x7d' :: r => some (.jobj [], r)
        | r => parseMembers fuel [] r
      else if c = '[' then
        match skipWs rest with
        | ']' :: r => some (.jarr [], r)
        | r => parseElems fuel [] r
      else if c = 't' then parseLit ['t', 'r', 'u', 'e'] (.jbool true) (c :: rest)
      else if c = 'f' then parseLit ['f', 'a', 'l', 's', 'e'] (.jbool false) (c :: rest)
      else if c = 'n' then parseLit ['n', 'u', 'l', 'l'] .jnull (c :: rest)
      else if c = '-' ∨ c.isDigit then
        match parseNumber (c :: rest) with
        | some (q, r) => some (.jnum q, r)
        | none => none
      else none

/-- The members of a non-empty object, positioned at a key. -/
def parseMembers : Nat → List (String × JSVal) → List Char → Option (JSVal × List Char)
  | 0, _, _ => none
  | fuel + 1, acc, l =>
    match skipWs l with
    | '"' :: rest =>
      match parseStrAux [] rest with
      | none => none
      | some (k, r1) =>
        match skipWs r1 with
        | ':' :: r2 =>
          match parseValue fuel r2 with
          | none => none
          | some (v, r3) =>
            match skipWs r3 with
            | ',' :: r4 => parseMembers fuel (insertField acc k v) r4
            | '\x7d' :: r4 => some (.jobj (insertField acc k v), r4)
            | _ => none
        | _ => none
    | _ => none

/-- The elements of a non-empty array, positioned at a value. -/
def parseElems : Nat → List JSVal → List Char → Option (JSVal × List Char)
  | 0, _, _ => none
  | fuel + 1, acc, l =>
    match parseValue fuel l with
    | none => none
    | some (v, r1) =>
      match skipWs r1 with
      | ',' :: r2 => parseElems fuel (acc ++ [v]) r2
      | ']' :: r2 => some (.jarr (acc ++ [v]), r2)
      | _ => none

end

/-- `JSON.parse`: one JSON text with nothing but whitespace after it;
`none` models the thrown `SyntaxError`. -/
def JSON.parse (s : String) : Option JSVal :=
  match parseValue (2 * s.data.length + 2) s.data with
  | some (v, rest) => if skipWs rest = [] then some v else none
  | none => none

/-! ### The D1 store

`feedback(id, source, content, sentiment, category, urgency, created_at)`
and `aggregated_stats(id, stat_type unique, stat_value, updated_at)`,
with autoincrement ids.  Timestamps appear in no claim and are omitted. -/

/-- A SQLite storage value, as D1 stores a bound parameter: `null`, a
number (booleans are converted to 0/1 at bind time), or text. -/
inductive SqlVal where
  | vnull : SqlVal
  | vnum (q : ℚ) : SqlVal
  | vtext (s : String) : SqlVal
deriving DecidableEq, Repr

/-- D1 parameter binding: `undefined`, objects and arrays are rejected
(the `bind` call throws), booleans become the integers 1/0. -/
def toSql (v : JSVal) : Option SqlVal :=
  match v with
  | .jnull => some .vnull
  | .jbool b => some (.vnum (if b then 1 else 0))
  | .jnum q => some (.vnum q)
  | .jstr s => some (.vtext s)
  | _ => none

/-- SQL `=` as a filter: `NULL` matches nothing, values of different
storage classes are unequal. -/
def sqlEq (a b : SqlVal) : Bool :=
  match a, b with
  | .vnum x, .vnum y => x = y
  | .vtext x, .vtext y => x = y
  | _, _ => false

/-- One row of the `feedback` table. -/
structure FeedbackRow where
  id : Nat
  source : String
  content : String
  sentiment : SqlVal
  category : SqlVal
  urgency : SqlVal
deriving DecidableEq, Repr

/-- One row of the `aggregated_stats` table. -/
structure StatRow where
  id : Nat
  statType : String
  statValue : String
deriving DecidableEq, Repr

/-- The two tables of the D1 database. -/
structure DB where
  feedback : List FeedbackRow
  stats : List StatRow
deriving DecidableEq, Repr

/-- The empty database. -/
def DB.empty : DB := ⟨[], []⟩

/-- Next autoincrement id for the `feedback` table. -/
def freshFeedbackId (db : DB) : Nat :=
  (db.feedback.map FeedbackRow.id).foldr max 0 + 1

/-- Next autoincrement id for the `aggregated_stats` table. -/
def freshStatId (db : DB) : Nat :=
  (db.stats.map StatRow.id).foldr max 0 + 1

/-- `SELECT COUNT(*) FROM feedback WHERE category = ?`. -/
def countCategory (db : DB) (c : SqlVal) : Nat :=
  (db.feedback.filter (fun r => sqlEq r.category c)).length

/-- `stat_value` of the first `aggregated_stats` row whose `stat_type` is
`key`. -/
def statLookup (db : DB) (key : String) : Option String :=
  (db.stats.find? (fun r => r.statType == key)).map StatRow.statValue

/-- Replacement of the value of a row whose key is `key`, keeping its id. -/
def statReplace (key value : String) (r : StatRow) : StatRow :=
  if r.statType == key then { r with statValue := value } else r

/-- `INSERT OR REPLACE INTO aggregated_stats (id, stat_type, stat_value)
VALUES ((SELECT id FROM aggregated_stats WHERE stat_type = ?), ?, ?)`
(line 60 of `src/index.ts`): if a row with this `stat_type` exists, its
value is replaced at the same id; otherwise the subquery yields `NULL`
and a fresh row is inserted with a fresh autoincrement id. -/
def upsertStat (db : DB) (key value : String) : DB :=
  if db.stats.any (fun r => r.statType == key) then
    { db with stats := db.stats.map (statReplace key value) }
  else
    { db with stats := db.stats ++ [⟨freshStatId db, key, value⟩] }

/-- `INSERT INTO feedback (source, content, sentiment, category, urgency)
VALUES (?, ?, ?, ?, ?)` — the `store-feedback` step (lines 41-47). -/
def persistRow (db : DB) (source content : String) (sv cv uv : SqlVal) : DB :=
  { db with
    feedback := db.feedback ++ [⟨freshFeedbackId db, source, content, sv, cv, uv⟩] }

/-! ### The workflow steps (`MyWorkflow.run`, lines 5-83) -/

/-- The fixed system instruction of the `analyze-feedback` step (line 13). -/
def systemInstruction : String :=
  "You are a feedback analyzer. Analyze the following feedback and respond with JSON only containing: sentiment (positive/neutral/negative), category (bug/feature/question/complaint), urgency (low/medium/high), and a brief reason."

/-- The user message of the `analyze-feedback` step (line 17). -/
def userMessage (source content : String) : String :=
  "Source: " ++ source ++ "\nFeedback: " ++ content

/-- The fallback Classification returned when `JSON.parse` throws on the
model's response (lines 31-36). -/
def defaultClassification : JSVal :=
  .jobj [("sentiment", .jstr "neutral"), ("category", .jstr "unknown"),
         ("urgency", .jstr "low"), ("reason", .jstr "Could not parse AI response")]

/-- The `analyze-feedback` step (lines 9-38).  The external
`env.AI.run` call is modelled by its outcome `aiResult`: `.error ()` if
the call throws (the call sits **outside** the `try`, so the error
propagates out of the step), `.ok text` if it returns `text` as
`response.response`.  Inside the `try`, a `JSON.parse` failure is caught
and replaced by `defaultClassification`; a successful parse is returned
unchanged, whatever its shape. -/
def analyzeFeedback (aiResult : Except Unit String) : Except Unit JSVal :=
  match aiResult with
  | .error e => .error e
  | .ok text =>
    match JSON.parse text with
    | some v => .ok v
    | none => .ok defaultClassification

/-- JavaScript `===` against a string literal: true exactly for that
string value. -/
def jsStrictEqStr (v : JSVal) (s : String) : Bool :=
  match v with
  | .jstr t => t = s
  | _ => false

/-- The `check-urgency` step (lines 67-76): if `analysis.urgency === 'high'`
return `alert: true` with a message naming the category and the source and
the first 100 characters of the content under the key `content`; otherwise
return `alert: false` only.  Property reads on a `null` analysis throw. -/
def checkUrgency (analysis : JSVal) (source content : String) : Except Unit JSVal := do
  let urg ← jsMember analysis "urgency"
  if jsStrictEqStr urg "high" then
    let cat ← jsMember analysis "category"
    pure (.jobj [("alert", .jbool true),
      ("message", .jstr ("🚨 High urgency " ++ jsToString cat ++ " detected from " ++ source)),
      ("content", .jstr (content.take 100))])
  else
    pure (.jobj [("alert", .jbool false)])

/-- `Option` to `Except`, for a D1 `bind` call that throws on an
unsupported value. -/
def bindVal (v : JSVal) : Except Unit SqlVal :=
  match toSql v with
  | some s => .ok s
  | none => .error ()

/-- The `update-stats` step (lines 50-64): recount the rows whose
`category` equals `analysis.category`, then upsert the row keyed
`category_<analysis.category>` with the `JSON.stringify` of the
count-query's result row `\x7bcount: n\x7d`. -/
def updateAggregate (db : DB) (category : JSVal) : Except Unit DB := do
  let cv ← bindVal category
  let cnt := countCategory db cv
  let key := "category_" ++ jsToString category
  let value := jsonStringify (.jobj [("count", .jnum (cnt : ℚ))])
  pure (upsertStat db key value)

/-- `MyWorkflow.run` (lines 5-83): the four steps in sequence —
`analyze-feedback`, `store-feedback`, `update-stats`, `check-urgency` —
then the result object `\x7bsuccess: true, analysis, alert\x7d`.  Any
thrown error makes the run fail (`.error ()`); the durable-execution
host's retries are outside this model. -/
def runWorkflow (source content : String) (aiResult : Except Unit String) (db : DB) :
    Except Unit (JSVal × DB) := do
  let analysis ← analyzeFeedback aiResult
  let sv ← jsMember analysis "sentiment" >>= bindVal
  let cv ← jsMember analysis "category" >>= bindVal
  let uv ← jsMember analysis "urgency" >>= bindVal
  let db1 := persistRow db source content sv cv uv
  let catRaw ← jsMember analysis "category"
  let db2 ← updateAggregate db1 catRaw
  let alert ← checkUrgency analysis source content
  pure (.jobj [("success", .jbool true), ("analysis", analysis), ("alert", alert)], db2)

/-! ### The HTTP handler for `POST /api/feedback` (lines 115-133) -/

/-- An HTTP response: status and JSON body.  `Response.json` without an
explicit status is 200. -/
structure HttpResponse where
  status : Nat
  body : JSVal

/-- The `POST /api/feedback` handler.  `request.json()` is modelled by
`JSON.parse bodyText`; the external `env.MY_WORKFLOW.create` call by its
outcome `createResult` (`.ok id` returns the new run's identifier).  The
whole block sits in one `try`: a parse failure or a throwing `create`
lands in the `catch`, a 400 with `\x7berror: "Invalid request body"\x7d`.
The returned `Bool` records whether a workflow run was started; the
handler itself never touches the store. -/
def handleFeedbackPost (bodyText : String) (createResult : Except Unit String) :
    HttpResponse × Bool :=
  match JSON.parse bodyText with
  | none => (⟨400, .jobj [("error", .jstr "Invalid request body")]⟩, false)
  | some _ =>
    match createResult with
    | .ok wid => (⟨200, .jobj [("success", .jbool true), ("workflowId", .jstr wid)]⟩, true)
    | .error _ => (⟨400, .jobj [("error", .jstr "Invalid request body")]⟩, false)

/-! ### Spec-side predicates -/

/-- One field of a classification object is populated: present and
neither `null` nor `undefined`. -/
def populatedField (fields : List (String × JSVal)) (k : String) : Bool :=
  match lookupField fields k with
  | none => false
  | some .undefined => false
  | some .jnull => false
  | some _ => true

/-- A Classification with all four fields populated (never
null/undefined), per §3 and §8 of the spec. -/
def fullyPopulated (v : JSVal) : Bool :=
  match v with
  | .jobj fields =>
    ["sentiment", "category", "urgency", "reason"].all (populatedField fields)
  | _ => false

/-! ### Sample inputs for concrete runs -/

/-- A 150-character feedback content, as in the end-to-end scenario of §8. -/
def sampleContent : String := String.mk (List.replicate 150 'x')

/-- The first 100 characters of `sampleContent`. -/
def sampleContent100 : String := String.mk (List.replicate 100 'x')

/-- A well-formed model response, as in the end-to-end scenario of §8. -/
def sampleAiText : String :=
  "\x7b\"sentiment\":\"negative\",\"category\":\"bug\",\"urgency\":\"high\",\"reason\":\"test\"\x7d"

/-- The Classification parsed from `sampleAiText`. -/
def sampleClassification : JSVal :=
  .jobj [("sentiment", .jstr "negative"), ("category", .jstr "bug"),
         ("urgency", .jstr "high"), ("reason", .jstr "test")]

/-! ### Helper lemmas about the store operations -/

/-- Upserting a stat leaves the `feedback` table unchanged. -/
theorem upsertStat_feedback (db : DB) (k v : String) :
    (upsertStat db k v).feedback = db.feedback := by
  unfold upsertStat; split <;> rfl

/-- A category count is unaffected by a stat upsert. -/
theorem countCategory_upsertStat (db : DB) (k v : String) (c : SqlVal) :
    countCategory (upsertStat db k v) c = countCategory db c := by
  unfold countCategory; rw [upsertStat_feedback]

/-- Inserting a feedback row leaves the `aggregated_stats` table unchanged. -/
theorem persistRow_stats (db : DB) (s c : String) (sv cv uv : SqlVal) :
    (persistRow db s c sv cv uv).stats = db.stats := rfl

/-- The count of a category after inserting a row of that category is one
more than before. -/
theorem countCategory_persistRow_self (db : DB) (s c : String) (sv uv : SqlVal)
    (cat : String) :
    countCategory (persistRow db s c sv (.vtext cat) uv) (.vtext cat) =
      countCategory db (.vtext cat) + 1 := by
  unfold countCategory persistRow
  simp [sqlEq]

/-- `statReplace` on a row keyed `k`. -/
theorem statReplace_pos (k v : String) (r : StatRow) (hr : r.statType = k) :
    statReplace k v r = { r with statValue := v } :=
  if_pos (by simp [statReplace, hr])

/-- `statReplace` on a row not keyed `k`. -/
theorem statReplace_neg (k v : String) (r : StatRow) (hr : ¬ r.statType = k) :
    statReplace k v r = r :=
  if_neg (by simp [hr])

/-- `statReplace` never changes a row's key. -/
theorem statReplace_statType (k v : String) (r : StatRow) :
    (statReplace k v r).statType = r.statType := by
  by_cases hr : r.statType = k
  · rw [statReplace_pos k v r hr]
  · rw [statReplace_neg k v r hr]

/-- `statReplace` is idempotent. -/
theorem statReplace_statReplace (k v : String) (r : StatRow) :
    statReplace k v (statReplace k v r) = statReplace k v r := by
  by_cases hr : r.statType = k
  · rw [statReplace_pos k v r hr]
    exact statReplace_pos k v { r with statValue := v } hr
  · rw [statReplace_neg k v r hr, statReplace_neg k v r hr]

/-- If some row of `l` is keyed `k`, the first `k`-keyed row of the
value-replaced list carries the new value. -/
theorem find?_map_statReplace (l : List StatRow) (k v : String)
    (h : l.any (fun r => r.statType == k) = true) :
    ((l.map (statReplace k v)).find?
      (fun r => r.statType == k)).map StatRow.statValue = some v := by
  induction l with
  | nil => simp at h
  | cons r t ih =>
    by_cases hr : r.statType = k
    · rw [List.map_cons, statReplace_pos k v r hr]
      have hfind : List.find? (fun r => r.statType == k)
          ({ r with statValue := v } :: List.map (statReplace k v) t) =
          some { r with statValue := v } :=
        List.find?_cons_of_pos _ (by simp [hr])
      rw [hfind]
      rfl
    · rw [List.map_cons, statReplace_neg k v r hr]
      have hfind : List.find? (fun r => r.statType == k)
          (r :: List.map (statReplace k v) t) =
          List.find? (fun r => r.statType == k) (List.map (statReplace k v) t) :=
        List.find?_cons_of_neg _ (by simp [hr])
      rw [hfind]
      apply ih
      simpa [List.any_cons, hr] using h

/-- If no row of `l` is keyed `k`, appending a fresh `k`-keyed row makes it
the first `k`-keyed row found. -/
theorem find?_append_singleton (l : List StatRow) (k v : String) (i : Nat)
    (h : l.any (fun r => r.statType == k) = false) :
    (l ++ [(⟨i, k, v⟩ : StatRow)]).find? (fun r => r.statType == k) =
      some ⟨i, k, v⟩ := by
  induction l with
  | nil => simp [List.find?]
  | cons r t ih =>
    simp only [List.any_cons, Bool.or_eq_false_iff] at h
    rw [List.cons_append]
    have hfind : List.find? (fun r => r.statType == k)
        (r :: (t ++ [(⟨i, k, v⟩ : StatRow)])) =
        List.find? (fun r => r.statType == k) (t ++ [(⟨i, k, v⟩ : StatRow)]) :=
      List.find?_cons_of_neg _ (by simp [h.1])
    rw [hfind]
    exact ih h.2

/-- After `upsertStat db k v`, the stored value under key `k` is `v`. -/
theorem statLookup_upsertStat (db : DB) (k v : String) :
    statLookup (upsertStat db k v) k = some v := by
  by_cases h : db.stats.any (fun r => r.statType == k) = true
  · unfold statLookup upsertStat
    rw [if_pos h]
    exact find?_map_statReplace db.stats k v h
  · unfold statLookup upsertStat
    rw [if_neg h]
    show ((db.stats ++ [_]).find? _).map _ = _
    rw [find?_append_singleton db.stats k v _ (by simpa using h)]
    rfl

/-- A stat upsert keeps the stat keys duplicate-free. -/
theorem upsertStat_nodupKeys (db : DB) (k v : String)
    (h : (db.stats.map StatRow.statType).Nodup) :
    ((upsertStat db k v).stats.map StatRow.statType).Nodup := by
  by_cases ha : db.stats.any (fun r => r.statType == k) = true
  · unfold upsertStat
    rw [if_pos ha]
    show ((db.stats.map _).map _).Nodup
    rw [List.map_map]
    have hcomp : (StatRow.statType ∘ statReplace k v) = StatRow.statType := by
      funext r; exact statReplace_statType k v r
    rw [hcomp]
    exact h
  · unfold upsertStat
    rw [if_neg ha]
    show ((db.stats ++ [_]).map StatRow.statType).Nodup
    rw [List.map_append]
    have hk : k ∉ db.stats.map StatRow.statType := by
      intro hmem
      obtain ⟨r, hr, hrk⟩ := List.mem_map.mp hmem
      exact ha (List.any_eq_true.mpr ⟨r, hr, by simp [hrk]⟩)
    simp [List.nodup_append, h, hk]

/-- The same upsert twice is the same as once. -/
theorem upsertStat_upsertStat (db : DB) (k v : String) :
    upsertStat (upsertStat db k v) k v = upsertStat db k v := by
  by_cases ha : db.stats.any (fun r => r.statType == k) = true
  · unfold upsertStat
    rw [if_pos ha]
    have ha2 : (db.stats.map (statReplace k v)).any
        (fun r => r.statType == k) = true := by
      rw [List.any_map]
      have hcomp : ((fun r : StatRow => r.statType == k) ∘ statReplace k v) =
          fun r : StatRow => r.statType == k := by
        funext r
        show ((statReplace k v r).statType == k) = (r.statType == k)
        rw [statReplace_statType]
      rw [hcomp]
      exact ha
    rw [if_pos ha2]
    have hmm : (db.stats.map (statReplace k v)).map (statReplace k v) =
        db.stats.map (statReplace k v) := by
      rw [List.map_map]
      apply List.map_congr_left
      intro r _
      exact statReplace_statReplace k v r
    rw [hmm]
  · unfold upsertStat
    rw [if_neg ha]
    have ha2 : (db.stats ++ [(⟨freshStatId db, k, v⟩ : StatRow)]).any
        (fun r => r.statType == k) = true := by
      simp
    rw [if_pos ha2]
    have hmap : (db.stats ++ [(⟨freshStatId db, k, v⟩ : StatRow)]).map
        (statReplace k v) = db.stats ++ [(⟨freshStatId db, k, v⟩ : StatRow)] := by
      rw [List.map_append]
      have h1 : db.stats.map (statReplace k v) = db.stats := by
        conv_rhs => rw [← List.map_id db.stats]
        apply List.map_congr_left
        intro r hr
        apply statReplace_neg
        intro hrk
        exact ha (List.any_eq_true.mpr ⟨r, hr, by simp [hrk]⟩)
      rw [h1]
      show _ ++ [statReplace k v _] = _
      rw [statReplace_pos k v _ rfl]
    rw [hmap]

/-! ### Parser sanity facts -/

/-- `JSON.parse` accepts the empty object. -/
theorem json_parse_empty_object : JSON.parse "\x7b\x7d" = some (.jobj []) := rfl

/-- `JSON.parse` rejects plain prose. -/
theorem json_parse_not_json : JSON.parse "not json" = none := rfl

/-- `JSON.parse` accepts the `null` literal. -/
theorem json_parse_null : JSON.parse "null" = some .jnull := rfl

/-- `JSON.parse` parses `sampleAiText` to `sampleClassification`. -/
theorem json_parse_sampleAiText :
    JSON.parse sampleAiText = some sampleClassification := rfl

/-! ### The claims -/

/-- Claim C1 (counterexample): a thrown error from the generation call is
not converted to the default Classification — `env.AI.run` sits outside
the `try`, so the `analyze-feedback` step propagates the error. -/
theorem c1_counterexample :
    analyzeFeedback (.error ()) = .error () ∧
    analyzeFeedback (.error ()) ≠ .ok defaultClassification := by
  refine ⟨rfl, ?_⟩
  intro h
  exact Except.noConfusion h

/-- Claim C1 (amended): the classify step returns the fixed default
Classification whenever the response text fails to parse as JSON, but a
thrown error from the generation call itself propagates out of the step
instead of being caught. -/
theorem c1_classify_error_behaviour :
    (∀ s : String, JSON.parse s = none →
      analyzeFeedback (.ok s) = .ok defaultClassification) ∧
    (∀ e : Unit, analyzeFeedback (.error e) = .error e) := by
  constructor
  · intro s h
    simp [analyzeFeedback, h]
  · intro e
    rfl

/-- Witness for C1 at concrete inputs. -/
theorem c1_witness :
    analyzeFeedback (.ok "not json") = .ok defaultClassification ∧
    analyzeFeedback (.error ()) = .error () :=
  ⟨c1_classify_error_behaviour.1 "not json" rfl, c1_classify_error_behaviour.2 ()⟩

/-- Claim C2 (counterexample): a response that parses as JSON but is not
an object with the four fields is passed through unchanged — `"\x7b\x7d"`
yields the empty object, which is not fully populated. -/
theorem c2_counterexample :
    analyzeFeedback (.ok "\x7b\x7d") = .ok (.jobj []) ∧
    fullyPopulated (.jobj []) = false :=
  ⟨rfl, rfl⟩

/-- Claim C2 (amended): the Classification has all four fields populated
whenever the response fails to parse as JSON (the default is substituted,
and it is fully populated); a response that parses as JSON is returned
as-is, unvalidated, and may lack fields. -/
theorem c2_populated_only_on_parse_failure :
    (∀ s : String, JSON.parse s = none →
      analyzeFeedback (.ok s) = .ok defaultClassification ∧
      fullyPopulated defaultClassification = true) ∧
    (∀ (s : String) (v : JSVal), JSON.parse s = some v →
      analyzeFeedback (.ok s) = .ok v) := by
  constructor
  · intro s h
    exact ⟨by simp [analyzeFeedback, h], rfl⟩
  · intro s v h
    simp [analyzeFeedback, h]

/-- Witness for C2 at concrete inputs. -/
theorem c2_witness :
    (analyzeFeedback (.ok "garbage") = .ok defaultClassification ∧
      fullyPopulated defaultClassification = true) ∧
    analyzeFeedback (.ok "\"hi\"") = .ok (.jstr "hi") :=
  ⟨c2_populated_only_on_parse_failure.1 "garbage" rfl,
   c2_populated_only_on_parse_failure.2 "\"hi\"" (.jstr "hi") rfl⟩

/-- Claim C4 (counterexample): the fallback reason is
`"Could not parse AI response"` (capital C), not the claimed exact string
`"could not parse AI response"`; and a response that is valid JSON of the
wrong shape (here `"\x7b\x7d"`) is not replaced by the default at all. -/
theorem c4_counterexample :
    analyzeFeedback (.ok "not json") = .ok defaultClassification ∧
    lookupField [("sentiment", JSVal.jstr "neutral"), ("category", .jstr "unknown"),
      ("urgency", .jstr "low"), ("reason", .jstr "Could not parse AI response")]
      "reason" = some (.jstr "Could not parse AI response") ∧
    "Could not parse AI response" ≠ "could not parse AI response" ∧
    analyzeFeedback (.ok "\x7b\x7d") ≠ .ok defaultClassification := by
  refine ⟨rfl, rfl, by decide, ?_⟩
  intro h
  injection h with h1
  injection h1 with h2
  exact List.noConfusion h2

/-- Claim C4 (amended): whenever the response text is not valid JSON
(`JSON.parse` throws), the resulting Classification equals exactly
`\x7bsentiment: "neutral", category: "unknown", urgency: "low",
reason: "Could not parse AI response"\x7d`. -/
theorem c4_default_on_invalid_json :
    ∀ s : String, JSON.parse s = none →
      analyzeFeedback (.ok s) =
        .ok (.jobj [("sentiment", .jstr "neutral"), ("category", .jstr "unknown"),
          ("urgency", .jstr "low"),
          ("reason", .jstr "Could not parse AI response")]) := by
  intro s h
  simp [analyzeFeedback, h, defaultClassification]

/-- Witness for C4 at a concrete input. -/
theorem c4_witness :
    analyzeFeedback (.ok "not valid json") =
      .ok (.jobj [("sentiment", .jstr "neutral"), ("category", .jstr "unknown"),
        ("urgency", .jstr "low"),
        ("reason", .jstr "Could not parse AI response")]) :=
  c4_default_on_invalid_json "not valid json" rfl

set_option maxRecDepth 40000 in
/-- Claim C3 (counterexample): the high-urgency alert payload carries the
100-character prefix of the content under the key `content`, not under a
key `excerpt` — the payload has no `excerpt` field at all. -/
theorem c3_counterexample :
    checkUrgency (.jobj [("urgency", .jstr "high"), ("category", .jstr "bug")])
      "Discord" sampleContent =
      .ok (.jobj [("alert", .jbool true),
        ("message", .jstr "🚨 High urgency bug detected from Discord"),
        ("content", .jstr sampleContent100)]) ∧
    lookupField [("alert", JSVal.jbool true),
      ("message", .jstr "🚨 High urgency bug detected from Discord"),
      ("content", .jstr sampleContent100)] "excerpt" = none :=
  ⟨rfl, rfl⟩

/-- Claim C3 (amended): for urgency `"high"` the step returns
`alert: true`, a message naming the category and the source, and the
first 100 characters of the content under the key `content`; for any
other urgency value it returns exactly `\x7balert: false\x7d`. -/
theorem c3_urgency_gate :
    (∀ (fields : List (String × JSVal)) (source content : String),
      lookupField fields "urgency" = some (.jstr "high") →
      checkUrgency (.jobj fields) source content =
        .ok (.jobj [("alert", .jbool true),
          ("message", .jstr ("🚨 High urgency " ++
            jsToString ((lookupField fields "category").getD .undefined) ++
            " detected from " ++ source)),
          ("content", .jstr (content.take 100))])) ∧
    (∀ (analysis : JSVal) (source content : String) (u : JSVal),
      jsMember analysis "urgency" = .ok u → jsStrictEqStr u "high" = false →
      checkUrgency analysis source content =
        .ok (.jobj [("alert", .jbool false)])) := by
  constructor
  · intro fields source content h
    simp [checkUrgency, jsMember, h, jsStrictEqStr, Bind.bind, Except.bind,
      pure, Except.pure]
  · intro analysis source content u h hu
    simp [checkUrgency, h, hu, Bind.bind, Except.bind, pure, Except.pure]

/-- Witness for C3 at concrete inputs. -/
theorem c3_witness :
    checkUrgency (.jobj [("urgency", JSVal.jstr "high"), ("category", .jstr "bug")])
      "Discord" "short" =
      .ok (.jobj [("alert", .jbool true),
        ("message", .jstr ("🚨 High urgency " ++
          jsToString ((lookupField [("urgency", JSVal.jstr "high"),
            ("category", .jstr "bug")] "category").getD .undefined) ++
          " detected from " ++ "Discord")),
        ("content", .jstr ("short".take 100))]) ∧
    checkUrgency defaultClassification "GitHub" "hello" =
      .ok (.jobj [("alert", .jbool false)]) :=
  ⟨c3_urgency_gate.1 [("urgency", JSVal.jstr "high"), ("category", .jstr "bug")]
      "Discord" "short" rfl,
   c3_urgency_gate.2 defaultClassification "GitHub" "hello" (.jstr "low") rfl rfl⟩

set_option maxRecDepth 40000 in
/-- Claim C5 (counterexample): a completed run returns the object
`\x7bsuccess: true, analysis, alert\x7d` — the Classification travels
under the key `analysis`, and there is no key `classification`. -/
theorem c5_counterexample :
    runWorkflow "Discord" "hello" (.ok sampleAiText) DB.empty =
      .ok (.jobj [("success", .jbool true), ("analysis", sampleClassification),
        ("alert", .jobj [("alert", .jbool true),
          ("message", .jstr "🚨 High urgency bug detected from Discord"),
          ("content", .jstr "hello")])],
        ⟨[⟨1, "Discord", "hello", .vtext "negative", .vtext "bug", .vtext "high"⟩],
         [⟨1, "category_bug", "\x7b\"count\":1\x7d"⟩]⟩) ∧
    lookupField [("success", JSVal.jbool true), ("analysis", sampleClassification),
      ("alert", .jobj [("alert", .jbool true),
        ("message", .jstr "🚨 High urgency bug detected from Discord"),
        ("content", .jstr "hello")])] "classification" = none ∧
    ([("success", JSVal.jbool true), ("analysis", sampleClassification),
      ("alert", .jobj [("alert", .jbool true),
        ("message", .jstr "🚨 High urgency bug detected from Discord"),
        ("content", .jstr "hello")])].map Prod.fst) =
      ["success", "analysis", "alert"] :=
  ⟨rfl, rfl, rfl⟩

/-- Claim C5 (amended): the orchestrator runs classify, persist,
aggregate-update and urgency-check strictly in that order — the final
store is the aggregate update applied to the persisted store — and on
completion returns exactly `\x7bsuccess: true, analysis, alert\x7d`,
where `analysis` is the step-1 Classification and `alert` the step-4
payload. -/
theorem c5_run_shape :
    ∀ (source content : String) (ai : Except Unit String) (db : DB)
      (a sraw craw uraw : JSVal) (sv cv uv : SqlVal) (al : JSVal) (db2 : DB),
      analyzeFeedback ai = .ok a →
      jsMember a "sentiment" = .ok sraw → bindVal sraw = .ok sv →
      jsMember a "category" = .ok craw → bindVal craw = .ok cv →
      jsMember a "urgency" = .ok uraw → bindVal uraw = .ok uv →
      updateAggregate (persistRow db source content sv cv uv) craw = .ok db2 →
      checkUrgency a source content = .ok al →
      runWorkflow source content ai db =
        .ok (.jobj [("success", .jbool true), ("analysis", a), ("alert", al)],
          db2) := by
  intro source content ai db a sraw craw uraw sv cv uv al db2 h1 h2 h3 h4 h5 h6
    h7 h8 h9
  simp [runWorkflow, h1, h2, h3, h4, h5, h6, h7, h8, h9, Bind.bind, Except.bind,
    pure, Except.pure]

set_option maxRecDepth 40000 in
/-- Witness for C5 at concrete inputs. -/
theorem c5_witness :
    runWorkflow "Discord" "hello" (.ok sampleAiText) DB.empty =
      .ok (.jobj [("success", .jbool true), ("analysis", sampleClassification),
        ("alert", .jobj [("alert", .jbool true),
          ("message", .jstr "🚨 High urgency bug detected from Discord"),
          ("content", .jstr "hello")])],
        ⟨[⟨1, "Discord", "hello", .vtext "negative", .vtext "bug", .vtext "high"⟩],
         [⟨1, "category_bug", "\x7b\"count\":1\x7d"⟩]⟩) :=
  c5_run_shape "Discord" "hello" (.ok sampleAiText) DB.empty sampleClassification
    (.jstr "negative") (.jstr "bug") (.jstr "high")
    (.vtext "negative") (.vtext "bug") (.vtext "high")
    (.jobj [("alert", .jbool true),
      ("message", .jstr "🚨 High urgency bug detected from Discord"),
      ("content", .jstr "hello")])
    ⟨[⟨1, "Discord", "hello", .vtext "negative", .vtext "bug", .vtext "high"⟩],
     [⟨1, "category_bug", "\x7b\"count\":1\x7d"⟩]⟩
    rfl rfl rfl rfl rfl rfl rfl rfl rfl

/-- Claim C6: after persisting an item of category `c`, the aggregate
update recomputes the full count (which includes the just-written row:
it is the previous count plus one), upserts the single row keyed
`category_<c>` — replace if present, insert otherwise, per `upsertStat` —
and keeps at most one row per distinct stat key. -/
theorem c6_aggregate_recount :
    ∀ (db : DB) (src cnt : String) (sv uv : SqlVal) (c : String),
      (db.stats.map StatRow.statType).Nodup →
      updateAggregate (persistRow db src cnt sv (.vtext c) uv) (.jstr c) =
        .ok (upsertStat (persistRow db src cnt sv (.vtext c) uv)
          ("category_" ++ c)
          (jsonStringify (.jobj [("count",
            .jnum (countCategory (persistRow db src cnt sv (.vtext c) uv)
              (.vtext c) : ℚ))]))) ∧
      countCategory (persistRow db src cnt sv (.vtext c) uv) (.vtext c) =
        countCategory db (.vtext c) + 1 ∧
      statLookup (upsertStat (persistRow db src cnt sv (.vtext c) uv)
          ("category_" ++ c)
          (jsonStringify (.jobj [("count",
            .jnum (countCategory (persistRow db src cnt sv (.vtext c) uv)
              (.vtext c) : ℚ))]))) ("category_" ++ c) =
        some (jsonStringify (.jobj [("count",
          .jnum ((countCategory db (.vtext c) + 1 : Nat) : ℚ))])) ∧
      ((upsertStat (persistRow db src cnt sv (.vtext c) uv)
          ("category_" ++ c)
          (jsonStringify (.jobj [("count",
            .jnum (countCategory (persistRow db src cnt sv (.vtext c) uv)
              (.vtext c) : ℚ))]))).stats.map StatRow.statType).Nodup := by
  intro db src cnt sv uv c hnodup
  refine ⟨rfl, countCategory_persistRow_self db src cnt sv uv c, ?_, ?_⟩
  · rw [statLookup_upsertStat, countCategory_persistRow_self]
  · exact upsertStat_nodupKeys _ _ _ hnodup

/-- Witness for C6 at concrete inputs. -/
theorem c6_witness :
    updateAggregate (persistRow DB.empty "Discord" "x" (.vtext "negative")
        (.vtext "bug") (.vtext "high")) (.jstr "bug") =
      .ok (upsertStat (persistRow DB.empty "Discord" "x" (.vtext "negative")
        (.vtext "bug") (.vtext "high")) ("category_" ++ "bug")
        (jsonStringify (.jobj [("count",
          .jnum (countCategory (persistRow DB.empty "Discord" "x"
            (.vtext "negative") (.vtext "bug") (.vtext "high"))
            (.vtext "bug") : ℚ))]))) ∧
    countCategory (persistRow DB.empty "Discord" "x" (.vtext "negative")
        (.vtext "bug") (.vtext "high")) (.vtext "bug") =
      countCategory DB.empty (.vtext "bug") + 1 ∧
    statLookup (upsertStat (persistRow DB.empty "Discord" "x" (.vtext "negative")
        (.vtext "bug") (.vtext "high")) ("category_" ++ "bug")
        (jsonStringify (.jobj [("count",
          .jnum (countCategory (persistRow DB.empty "Discord" "x"
            (.vtext "negative") (.vtext "bug") (.vtext "high"))
            (.vtext "bug") : ℚ))]))) ("category_" ++ "bug") =
      some (jsonStringify (.jobj [("count",
        .jnum ((countCategory DB.empty (.vtext "bug") + 1 : Nat) : ℚ))])) ∧
    ((upsertStat (persistRow DB.empty "Discord" "x" (.vtext "negative")
        (.vtext "bug") (.vtext "high")) ("category_" ++ "bug")
        (jsonStringify (.jobj [("count",
          .jnum (countCategory (persistRow DB.empty "Discord" "x"
            (.vtext "negative") (.vtext "bug") (.vtext "high"))
            (.vtext "bug") : ℚ))]))).stats.map StatRow.statType).Nodup :=
  c6_aggregate_recount DB.empty "Discord" "x" (.vtext "negative")
    (.vtext "high") "bug" List.Pairwise.nil

/-- Claim C7: the aggregate-update step is idempotent in outcome — run
twice in immediate succession with no intervening insert, the second run
recomputes the same count and rewrites the same row, leaving the store
exactly as after the first run. -/
theorem c7_update_aggregate_idempotent :
    ∀ (db : DB) (category : JSVal) (db1 : DB),
      updateAggregate db category = .ok db1 →
      updateAggregate db1 category = .ok db1 := by
  intro db category db1 h
  cases hc : toSql category with
  | none =>
    rw [updateAggregate, bindVal, hc] at h
    exact Except.noConfusion h
  | some cv =>
    rw [updateAggregate, bindVal, hc] at h
    simp only [Bind.bind, Except.bind, pure, Except.pure] at h
    injection h with hdb
    rw [updateAggregate, bindVal, hc]
    simp only [Bind.bind, Except.bind, pure, Except.pure]
    rw [← hdb, countCategory_upsertStat, upsertStat_upsertStat]

/-- Witness for C7 at a concrete input. -/
theorem c7_witness :
    updateAggregate (⟨[], [⟨1, "category_bug", "\x7b\"count\":0\x7d"⟩]⟩ : DB)
        (.jstr "bug") =
      .ok ⟨[], [⟨1, "category_bug", "\x7b\"count\":0\x7d"⟩]⟩ :=
  c7_update_aggregate_idempotent DB.empty (.jstr "bug")
    ⟨[], [⟨1, "category_bug", "\x7b\"count\":0\x7d"⟩]⟩ rfl

/-- Claim C8: an unparseable `POST /api/feedback` body yields status 400
with body `\x7berror: "Invalid request body"\x7d` and starts no workflow
run (the handler never touches the store); a parseable body, when the
run is created with identifier `wid`, yields
`\x7bsuccess: true, workflowId: wid\x7d`. -/
theorem c8_feedback_post :
    (∀ (s : String) (cr : Except Unit String), JSON.parse s = none →
      handleFeedbackPost s cr =
        (⟨400, .jobj [("error", .jstr "Invalid request body")]⟩, false)) ∧
    (∀ (s : String) (v : JSVal) (wid : String), JSON.parse s = some v →
      handleFeedbackPost s (.ok wid) =
        (⟨200, .jobj [("success", .jbool true),
          ("workflowId", .jstr wid)]⟩, true)) := by
  constructor
  · intro s cr h
    simp [handleFeedbackPost, h]
  · intro s v wid h
    simp [handleFeedbackPost, h]

/-- Witness for C8 at concrete inputs. -/
theorem c8_witness :
    handleFeedbackPost "not json" (.ok "wf_1") =
      (⟨400, .jobj [("error", JSVal.jstr "Invalid request body")]⟩, false) ∧
    handleFeedbackPost "\x7b\"source\":\"Discord\",\"content\":\"hi\"\x7d"
        (.ok "wf_1") =
      (⟨200, .jobj [("success", JSVal.jbool true),
        ("workflowId", .jstr "wf_1")]⟩, true) :=
  ⟨c8_feedback_post.1 "not json" (.ok "wf_1") rfl,
   c8_feedback_post.2 "\x7b\"source\":\"Discord\",\"content\":\"hi\"\x7d"
     (.jobj [("source", .jstr "Discord"), ("content", .jstr "hi")]) "wf_1" rfl⟩

/-- Claim C9: the stored `stat_value` is the `JSON.stringify` of the whole
count-query result row `\x7bcount: n\x7d` — for a count of 3 the string
`"\x7b\"count\":3\x7d"` — never the bare numeric count. -/
theorem c9_stat_value_serialized_row :
    (∀ (db : DB) (c : String),
      updateAggregate db (.jstr c) =
        .ok (upsertStat db ("category_" ++ c)
          (jsonStringify (.jobj [("count",
            .jnum (countCategory db (.vtext c) : ℚ))])))) ∧
    (∀ (db : DB) (c : String),
      statLookup (upsertStat db ("category_" ++ c)
          (jsonStringify (.jobj [("count",
            .jnum (countCategory db (.vtext c) : ℚ))]))) ("category_" ++ c) =
        some (jsonStringify (.jobj [("count",
          .jnum (countCategory db (.vtext c) : ℚ))]))) ∧
    jsonStringify (.jobj [("count", .jnum ((3 : Nat) : ℚ))]) =
      "\x7b\"count\":3\x7d" ∧
    "\x7b\"count\":3\x7d" ≠ "3" := by
  refine ⟨fun db c => rfl, fun db c => statLookup_upsertStat _ _ _, rfl, by decide⟩

/-- Claim C10: `POST /api/feedback` validates nothing beyond JSON
well-formedness — the 400 error is returned exactly when body parsing or
run creation throws, and any parseable body (including `\x7b\x7d` and
`null`) is accepted with a success response. -/
theorem c10_no_validation :
    (∀ (s : String) (cr : Except Unit String),
      handleFeedbackPost s cr =
          (⟨400, .jobj [("error", .jstr "Invalid request body")]⟩, false) ↔
        (JSON.parse s = none ∨ cr = .error ())) ∧
    (∀ wid : String,
      handleFeedbackPost "\x7b\x7d" (.ok wid) =
        (⟨200, .jobj [("success", .jbool true),
          ("workflowId", .jstr wid)]⟩, true) ∧
      handleFeedbackPost "null" (.ok wid) =
        (⟨200, .jobj [("success", .jbool true),
          ("workflowId", .jstr wid)]⟩, true)) ∧
    (∀ (s : String) (v : JSVal) (wid : String), JSON.parse s = some v →
      handleFeedbackPost s (.ok wid) =
        (⟨200, .jobj [("success", .jbool true),
          ("workflowId", .jstr wid)]⟩, true)) := by
  refine ⟨?_, fun wid => ⟨rfl, rfl⟩, ?_⟩
  · intro s cr
    constructor
    · intro h
      cases hp : JSON.parse s with
      | none => exact Or.inl rfl
      | some v =>
        cases cr with
        | error e => cases e; exact Or.inr rfl
        | ok wid => simp [handleFeedbackPost, hp] at h
    · intro h
      rcases h with hp | hc
      · simp [handleFeedbackPost, hp]
      · subst hc
        cases hp : JSON.parse s <;> simp [handleFeedbackPost, hp]
  · intro s v wid hp
    simp [handleFeedbackPost, hp]

/-- Witness for C10 at concrete inputs. -/
theorem c10_witness :
    handleFeedbackPost "not json" (.ok "w") =
      (⟨400, .jobj [("error", JSVal.jstr "Invalid request body")]⟩, false) ∧
    handleFeedbackPost "\x7b\x7d" (.ok "w") =
      (⟨200, .jobj [("success", JSVal.jbool true),
        ("workflowId", .jstr "w")]⟩, true) :=
  ⟨(c10_no_validation.1 "not json" (.ok "w")).mpr (Or.inl rfl),
   (c10_no_validation.2.1 "w").1⟩

end PulseCheck
